import Mathlib

/-!
Verification of `src/backend/routers/announcements.py`, a FastAPI router
managing time-bounded announcements backed by a MongoDB collection.

The embedding is a direct translation of the Python module:
* stored documents become the `Announcement` structure (fields that the code
  reads with `doc.get(...)` become `Option String`, since arbitrary stored
  documents may lack them);
* `datetime.fromisoformat(...).date()` applied to calendar-date strings
  becomes `parseDate`, and `date.isoformat()` becomes `Date.isoformat`;
* the MongoDB collections become a `List Announcement` (insertion order) and
  a `List String` of teacher ids; the store's single-document operations
  (`insert_one`, `update_one`, `delete_one`, `find_one`, sorted `find`) are
  modelled as pure list operations;
* `HTTPException` raising becomes `Except ApiError`; every operation also
  returns the resulting collection, which in error branches is the input
  collection unchanged (exceptions are raised before any write).
-/

/-- A calendar date, the result of `datetime.fromisoformat(s).date()`. -/
structure Date where
  year : Nat
  month : Nat
  day : Nat
deriving DecidableEq, Repr

/-- Python `date` ordering: lexicographic on (year, month, day). -/
def Date.le (a b : Date) : Prop :=
  a.year < b.year ∨ (a.year = b.year ∧
    (a.month < b.month ∨ (a.month = b.month ∧ a.day ≤ b.day)))

/-- Python `date` strict ordering. -/
def Date.lt (a b : Date) : Prop :=
  a.year < b.year ∨ (a.year = b.year ∧
    (a.month < b.month ∨ (a.month = b.month ∧ a.day < b.day)))

instance : LE Date := ⟨Date.le⟩

instance : LT Date := ⟨Date.lt⟩

instance (a b : Date) : Decidable (a ≤ b) :=
  inferInstanceAs (Decidable (a.year < b.year ∨ (a.year = b.year ∧
    (a.month < b.month ∨ (a.month = b.month ∧ a.day ≤ b.day)))))

instance (a b : Date) : Decidable (a < b) :=
  inferInstanceAs (Decidable (a.year < b.year ∨ (a.year = b.year ∧
    (a.month < b.month ∨ (a.month = b.month ∧ a.day < b.day)))))

theorem Date.not_lt_iff (a b : Date) : ¬a < b ↔ b ≤ a := by
  show ¬a.lt b ↔ b.le a
  unfold Date.lt Date.le
  omega

/-- Gregorian leap-year test, as in Python's `calendar`/`datetime`. -/
def isLeap (y : Nat) : Bool :=
  y % 4 == 0 && (y % 100 != 0 || y % 400 == 0)

/-- Number of days in a month, as validated by `datetime.fromisoformat`. -/
def daysInMonth (y m : Nat) : Nat :=
  if m = 2 then (if isLeap y then 29 else 28)
  else if m = 4 ∨ m = 6 ∨ m = 9 ∨ m = 11 then 30
  else 31

/-- Numeric value of a decimal digit character. -/
def digitVal (c : Char) : Nat := c.toNat - 48

/-- `datetime.fromisoformat(s).date()` on a calendar-date string: accepts
exactly `YYYY-MM-DD` with a valid Gregorian date (year 0001-9999), returning
`none` where Python raises `ValueError`. -/
def parseDate (s : String) : Option Date :=
  match s.data with
  | [y1, y2, y3, y4, h1, m1, m2, h2, d1, d2] =>
    if y1.isDigit && y2.isDigit && y3.isDigit && y4.isDigit &&
       h1 == '-' && m1.isDigit && m2.isDigit &&
       h2 == '-' && d1.isDigit && d2.isDigit then
      let y := ((digitVal y1 * 10 + digitVal y2) * 10 + digitVal y3) * 10 + digitVal y4
      let m := digitVal m1 * 10 + digitVal m2
      let d := digitVal d1 * 10 + digitVal d2
      if 1 ≤ y ∧ 1 ≤ m ∧ m ≤ 12 ∧ 1 ≤ d ∧ d ≤ daysInMonth y m then
        some ⟨y, m, d⟩
      else none
    else none
  | _ => none

/-- Zero-pad a numeral to two digits, as in `date.isoformat()`. -/
def pad2 (n : Nat) : String :=
  if n < 10 then "0" ++ toString n else toString n

/-- Zero-pad a numeral to four digits, as in `date.isoformat()`. -/
def pad4 (n : Nat) : String :=
  if n < 10 then "000" ++ toString n
  else if n < 100 then "00" ++ toString n
  else if n < 1000 then "0" ++ toString n
  else toString n

/-- `date.isoformat()`: serialize as `YYYY-MM-DD`. -/
def Date.isoformat (d : Date) : String :=
  pad4 d.year ++ "-" ++ pad2 d.month ++ "-" ++ pad2 d.day

/-- A stored announcement document.  `id` models `str(_id)`; `start_date`
and `expiration_date` are `Option` because the code reads them with
`doc.get(...)`, which yields `None` when the key is absent. -/
structure Announcement where
  id : String
  message : String
  start_date : Option String
  expiration_date : Option String
  created_at : String
  created_by : String
deriving DecidableEq, Repr

/-- The errors the router raises via `HTTPException`. -/
inductive ApiError where
  | unauthorized (detail : String)
  | invalidInput (detail : String)
  | notFound (detail : String)
deriving DecidableEq, Repr

/-- HTTP status code attached to each `HTTPException`. -/
def ApiError.status : ApiError → Nat
  | .unauthorized _ => 401
  | .invalidInput _ => 400
  | .notFound _ => 404

/-- MongoDB ascending sort on the `expiration_date` field: a document
missing the field sorts before every document carrying a string. -/
def optLe (a b : Option String) : Bool :=
  match a, b with
  | none, _ => true
  | some _, none => false
  | some x, some y => decide (x ≤ y)

/-- `list_announcements` (GET /announcements): every stored document,
sorted ascending by `expiration_date` by the store.  `_to_dict` only moves
`_id` to `id`, which the embedding's records already carry. -/
def list_announcements (docs : List Announcement) : List Announcement :=
  docs.mergeSort (fun x y => optLe x.expiration_date y.expiration_date)

/-- The per-document test of the `active_announcements` loop: skip documents
with a falsy (`None` or empty) or unparseable `expiration_date`; a falsy or
unparseable `start_date` imposes no lower bound; keep the document when
`not (start_date and now < start_date)` and `now <= expiration_date`. -/
def activeKeep (now : Date) (a : Announcement) : Bool :=
  match a.expiration_date with
  | none => false
  | some exp =>
    if exp = "" then false
    else
      match parseDate exp with
      | none => false
      | some exp_date =>
        let start_d : Option Date :=
          match a.start_date with
          | none => none
          | some s => if s = "" then none else parseDate s
        match start_d with
        | some sd => if now < sd then false else decide (now ≤ exp_date)
        | none => decide (now ≤ exp_date)

/-- `active_announcements` (GET /announcements/active): filter by
`activeKeep` against today's UTC date, then
`out.sort(key=lambda x: x.get("expiration_date", ""))`. -/
def active_announcements (now : Date) (docs : List Announcement) : List Announcement :=
  (docs.filter (activeKeep now)).mergeSort
    (fun x y => decide (x.expiration_date.getD "" ≤ y.expiration_date.getD ""))

/-- `_require_teacher`: a falsy username is rejected outright; otherwise the
teacher directory is consulted (`find_one({"_id": username})`) and a missing
record is rejected. -/
def require_teacher (teachers : List String) (username : Option String) :
    Except ApiError String :=
  match username with
  | none => .error (.unauthorized "Authentication required for this action")
  | some u =>
    if u = "" then .error (.unauthorized "Authentication required for this action")
    else if u ∈ teachers then .ok u
    else .error (.unauthorized "Invalid teacher credentials")

/-- The `if start_date:` validation block of `create_announcement`: a falsy
`start_date` is skipped; a truthy one must parse and must not come strictly
after the already-parsed expiration date. -/
def checkStartDate (exp_date : Date) (start_date : Option String) :
    Except ApiError Unit :=
  match start_date with
  | none => .ok ()
  | some s =>
    if s = "" then .ok ()
    else
      match parseDate s with
      | none => .error (.invalidInput "Invalid start_date format. Use YYYY-MM-DD")
      | some start_d =>
        if exp_date < start_d then
          .error (.invalidInput "start_date cannot be after expiration_date")
        else .ok ()

/-- `create_announcement` (POST /announcements).  `newId` stands for the
`_id` the store generates in `insert_one`, and `nowTs` for
`datetime.utcnow().isoformat()`.  Returns the response (or error) together
with the resulting collection. -/
def create_announcement (teachers : List String) (newId nowTs : String)
    (message : String) (expiration_date : String)
    (teacher_username : Option String) (start_date : Option String)
    (docs : List Announcement) :
    Except ApiError Announcement × List Announcement :=
  match require_teacher teachers teacher_username with
  | .error e => (.error e, docs)
  | .ok _ =>
    match parseDate expiration_date with
    | none => (.error (.invalidInput "Invalid expiration_date format. Use YYYY-MM-DD"), docs)
    | some exp_date =>
      match checkStartDate exp_date start_date with
      | .error e => (.error e, docs)
      | .ok _ =>
        let doc : Announcement :=
          { id := newId
            message := message
            start_date := start_date
            expiration_date := some exp_date.isoformat
            created_at := nowTs
            created_by :=
              match teacher_username with
              | none => "unknown"
              | some u => if u = "" then "unknown" else u }
        (.ok doc, docs ++ [doc])

/-- `ObjectId(ann_id)` succeeds exactly on a 24-character hex string. -/
def isValidOid (s : String) : Bool :=
  s.length == 24 && s.data.all (fun c =>
    c.isDigit || (97 ≤ c.toNat && c.toNat ≤ 102) || (65 ≤ c.toNat && c.toNat ≤ 70))

/-- The `{"$set": update}` document built by `update_announcement`: each
field is `some` exactly when the corresponding key is in the dict. -/
structure UpdateFields where
  message : Option String
  expiration_date : Option String
  start_date : Option String
deriving DecidableEq, Repr

/-- Applying a `$set` document to a stored record. -/
def applyFields (u : UpdateFields) (a : Announcement) : Announcement :=
  { a with
    message := match u.message with | some m => m | none => a.message
    expiration_date := match u.expiration_date with | some e => some e | none => a.expiration_date
    start_date := match u.start_date with | some s => some s | none => a.start_date }

/-- `update_one({"_id": oid}, {"$set": u})` followed by
`find_one({"_id": oid})`: rewrite the first document whose `_id` matches
(`_id` is unique in MongoDB) and report the rewritten document; `none` when
`matched_count == 0`. -/
def updateFirst (oid : String) (u : UpdateFields) :
    List Announcement → Option (Announcement × List Announcement)
  | [] => none
  | a :: rest =>
    if a.id = oid then some (applyFields u a, applyFields u a :: rest)
    else
      match updateFirst oid u rest with
      | none => none
      | some (r, rest') => some (r, a :: rest')

/-- The `if expiration_date is not None:` block of `update_announcement`: a
provided value must parse and is stored re-serialized. -/
def parseExpField (expiration_date : Option String) :
    Except ApiError (Option String) :=
  match expiration_date with
  | none => .ok none
  | some e =>
    match parseDate e with
    | none => .error (.invalidInput "Invalid expiration_date format. Use YYYY-MM-DD")
    | some d => .ok (some d.isoformat)

/-- The `if start_date is not None:` block of `update_announcement`: a
provided value must parse and is stored as the raw string. -/
def parseStartField (start_date : Option String) :
    Except ApiError (Option String) :=
  match start_date with
  | none => .ok none
  | some s =>
    match parseDate s with
    | none => .error (.invalidInput "Invalid start_date format. Use YYYY-MM-DD")
    | some _ => .ok (some s)

/-- `update_announcement` (PUT /announcements/\x7bann_id\x7d): requires a
teacher, a well-formed id, validates each provided date independently
(storing `expiration_date` re-serialized and `start_date` raw), rejects an
empty update, and merges into the matching record. -/
def update_announcement (teachers : List String) (ann_id : String)
    (message expiration_date : Option String)
    (teacher_username : Option String) (start_date : Option String)
    (docs : List Announcement) :
    Except ApiError Announcement × List Announcement :=
  match require_teacher teachers teacher_username with
  | .error e => (.error e, docs)
  | .ok _ =>
    if !isValidOid ann_id then
      (.error (.invalidInput "Invalid announcement id"), docs)
    else
      match parseExpField expiration_date with
      | .error e => (.error e, docs)
      | .ok expSet =>
        match parseStartField start_date with
        | .error e => (.error e, docs)
        | .ok startSet =>
          if message = none ∧ expSet = none ∧ startSet = none then
            (.error (.invalidInput "No fields to update"), docs)
          else
            match updateFirst ann_id ⟨message, expSet, startSet⟩ docs with
            | none => (.error (.notFound "Announcement not found"), docs)
            | some (ann, docs') => (.ok ann, docs')

/-- `delete_one({"_id": oid})`: remove the first matching document, `none`
when `deleted_count == 0`. -/
def deleteFirst (oid : String) : List Announcement → Option (List Announcement)
  | [] => none
  | a :: rest =>
    if a.id = oid then some rest
    else
      match deleteFirst oid rest with
      | none => none
      | some rest' => some (a :: rest')

/-- `delete_announcement` (DELETE /announcements/\x7bann_id\x7d). -/
def delete_announcement (teachers : List String) (ann_id : String)
    (teacher_username : Option String) (docs : List Announcement) :
    Except ApiError String × List Announcement :=
  match require_teacher teachers teacher_username with
  | .error e => (.error e, docs)
  | .ok _ =>
    if !isValidOid ann_id then
      (.error (.invalidInput "Invalid announcement id"), docs)
    else
      match deleteFirst ann_id docs with
      | none => (.error (.notFound "Announcement not found"), docs)
      | some docs' => (.ok "Announcement deleted", docs')

/-! ## Helper lemmas -/

theorem parseDate_ne_empty {e : String} {d : Date} (h : parseDate e = some d) :
    e ≠ "" := by
  intro he
  subst he
  exact Option.noConfusion h

theorem mem_active_iff (now : Date) (docs : List Announcement) (a : Announcement) :
    a ∈ active_announcements now docs ↔ a ∈ docs ∧ activeKeep now a = true := by
  unfold active_announcements
  rw [List.mem_mergeSort, List.mem_filter]

/-! ## Claims -/

/-- C1: a stored announcement whose `expiration_date` parses and whose
`start_date` is absent or parses is in `list_active()` exactly when
`(start_date is absent or start_date <= today) and today <= expiration_date`,
both bounds inclusive. -/
theorem active_iff_in_window
    (docs : List Announcement) (today : Date) (a : Announcement)
    (ha : a ∈ docs) (e : String) (ed : Date)
    (he : a.expiration_date = some e) (hed : parseDate e = some ed)
    (hstart : a.start_date = none ∨
      ∃ s sd, a.start_date = some s ∧ parseDate s = some sd) :
    a ∈ active_announcements today docs ↔
      ((a.start_date = none ∨
          ∃ s sd, a.start_date = some s ∧ parseDate s = some sd ∧ sd ≤ today) ∧
        today ≤ ed) := by
  rw [mem_active_iff]
  simp only [ha, true_and]
  have hne : e ≠ "" := parseDate_ne_empty hed
  rcases hstart with hnone | ⟨s, sd, hs, hsp⟩
  · simp [activeKeep, he, hne, hed, hnone]
  · have hsne : s ≠ "" := parseDate_ne_empty hsp
    have hgoal : activeKeep today a =
        (if today < sd then false else decide (today ≤ ed)) := by
      simp [activeKeep, he, hne, hed, hs, hsne, hsp]
    rw [hgoal]
    by_cases hlt : today < sd
    · simp only [if_pos hlt, Bool.false_eq_true, false_iff]
      rintro ⟨ha' | ⟨s', sd', hs', hsp', hle'⟩, -⟩
      · rw [hs] at ha'
        exact Option.noConfusion ha'
      · rw [hs] at hs'
        injection hs' with hs''
        subst hs''
        rw [hsp] at hsp'
        injection hsp' with hsd
        subst hsd
        exact absurd hlt (by rw [Date.not_lt_iff]; exact hle')
    · have hsle : sd ≤ today := (Date.not_lt_iff today sd).mp hlt
      simp only [if_neg hlt, decide_eq_true_eq]
      constructor
      · intro hle; exact ⟨Or.inr ⟨s, sd, hs, hsp, hsle⟩, hle⟩
      · rintro ⟨-, hle⟩; exact hle

/-- Witness for C1: the spec's example (today = 2024-06-15, window
2024-06-01 through 2024-06-30) is listed as active. -/
theorem active_iff_in_window_witness :
    (⟨"a", "m", some "2024-06-01", some "2024-06-30", "t", "u"⟩ : Announcement) ∈
      active_announcements ⟨2024, 6, 15⟩
        [⟨"a", "m", some "2024-06-01", some "2024-06-30", "t", "u"⟩] :=
  (active_iff_in_window
      [⟨"a", "m", some "2024-06-01", some "2024-06-30", "t", "u"⟩]
      ⟨2024, 6, 15⟩
      ⟨"a", "m", some "2024-06-01", some "2024-06-30", "t", "u"⟩
      (by decide) "2024-06-30" ⟨2024, 6, 30⟩ rfl (by decide)
      (Or.inr ⟨"2024-06-01", ⟨2024, 6, 1⟩, rfl, by decide⟩)).mpr
    ⟨Or.inr ⟨"2024-06-01", ⟨2024, 6, 1⟩, rfl, by decide, by decide⟩, by decide⟩

/-- C2: both listings come out sorted non-decreasing by the
`expiration_date` string. -/
theorem listings_sorted_by_expiration (docs : List Announcement) (today : Date) :
    (list_announcements docs).Pairwise
      (fun x y => ∀ ex ey, x.expiration_date = some ex →
        y.expiration_date = some ey → ex ≤ ey) ∧
    (active_announcements today docs).Pairwise
      (fun x y => ∀ ex ey, x.expiration_date = some ex →
        y.expiration_date = some ey → ex ≤ ey) := by
  constructor
  · unfold list_announcements
    refine List.Pairwise.imp ?_ (List.sorted_mergeSort ?_ ?_ docs)
    · intro a b h ex ey hx hy
      rw [hx, hy] at h
      simpa [optLe] using h
    · intro a b c hab hbc
      rcases ha : a.expiration_date with - | x <;>
        rcases hb : b.expiration_date with - | y <;>
        rcases hc : c.expiration_date with - | z <;>
        simp_all [optLe]
      exact le_trans hab hbc
    · intro a b
      rcases a.expiration_date with - | x <;>
        rcases b.expiration_date with - | y <;>
        simp only [optLe, Bool.or_eq_true, decide_eq_true_eq]
      · exact Or.inl trivial
      · exact Or.inl trivial
      · exact Or.inr trivial
      · exact le_total x y
  · unfold active_announcements
    refine List.Pairwise.imp ?_ (List.sorted_mergeSort ?_ ?_ (docs.filter (activeKeep today)))
    · intro a b h ex ey hx hy
      rw [decide_eq_true_eq, hx, hy] at h
      simpa using h
    · intro a b c hab hbc
      rw [decide_eq_true_eq] at *
      exact le_trans hab hbc
    · intro a b
      simpa using le_total (a.expiration_date.getD "") (b.expiration_date.getD "")

/-- C3: every announcement returned by `list_active()` carries an
`expiration_date` that is present, non-empty and parses as a date;
documents with a missing, empty or malformed `expiration_date` are
filtered out (the listing itself never fails). -/
theorem active_requires_valid_expiration
    (docs : List Announcement) (today : Date) (a : Announcement)
    (ha : a ∈ active_announcements today docs) :
    ∃ e ed, a.expiration_date = some e ∧ e ≠ "" ∧ parseDate e = some ed := by
  have hk := ((mem_active_iff today docs a).mp ha).2
  unfold activeKeep at hk
  split at hk
  · exact Bool.noConfusion hk
  · rename_i e hE
    by_cases hne : e = ""
    · rw [if_pos hne] at hk
      exact Bool.noConfusion hk
    · rw [if_neg hne] at hk
      split at hk
      · exact Bool.noConfusion hk
      · rename_i ed hP
        exact ⟨e, ed, hE, hne, hP⟩

/-- Witness for C3: applies the theorem to a concrete active store. -/
theorem active_requires_valid_expiration_witness :
    ∃ e ed,
      (⟨"a", "m", none, some "2024-06-30", "t", "u"⟩ : Announcement).expiration_date
          = some e ∧ e ≠ "" ∧ parseDate e = some ed :=
  active_requires_valid_expiration
    [⟨"a", "m", none, some "2024-06-30", "t", "u"⟩] ⟨2024, 6, 15⟩
    ⟨"a", "m", none, some "2024-06-30", "t", "u"⟩
    ((mem_active_iff ⟨2024, 6, 15⟩
        [⟨"a", "m", none, some "2024-06-30", "t", "u"⟩]
        ⟨"a", "m", none, some "2024-06-30", "t", "u"⟩).mpr (by decide))

/-- C4: a present but unparseable `start_date` is treated as no lower
bound: the announcement is listed whenever its `expiration_date` parses and
today is within the upper bound. -/
theorem active_ignores_malformed_start
    (docs : List Announcement) (today : Date) (a : Announcement)
    (ha : a ∈ docs) (s e : String) (ed : Date)
    (hs : a.start_date = some s) (hsp : parseDate s = none)
    (he : a.expiration_date = some e) (hep : parseDate e = some ed)
    (hnow : today ≤ ed) :
    a ∈ active_announcements today docs := by
  rw [mem_active_iff]
  refine ⟨ha, ?_⟩
  have hne : e ≠ "" := parseDate_ne_empty hep
  by_cases hse : s = ""
  · simp [activeKeep, he, hne, hep, hs, hse, hnow]
  · simp [activeKeep, he, hne, hep, hs, hse, hsp, hnow]

/-- Witness for C4: a record with `start_date = "garbage"` is listed. -/
theorem active_ignores_malformed_start_witness :
    (⟨"d", "m", some "garbage", some "2024-06-20", "t", "u"⟩ : Announcement) ∈
      active_announcements ⟨2024, 6, 15⟩
        [⟨"d", "m", some "garbage", some "2024-06-20", "t", "u"⟩] :=
  active_ignores_malformed_start
    [⟨"d", "m", some "garbage", some "2024-06-20", "t", "u"⟩] ⟨2024, 6, 15⟩
    ⟨"d", "m", some "garbage", some "2024-06-20", "t", "u"⟩ (by decide)
    "garbage" "2024-06-20" ⟨2024, 6, 20⟩ rfl (by decide) rfl (by decide)
    (by decide)

/-- C5: with an authorized actor and both dates parseable, a `start_date`
strictly later than `expiration_date` makes `create` fail with the 400
ordering error, inserting nothing (the collection is returned unchanged). -/
theorem create_rejects_start_after_expiration
    (teachers : List String) (newId nowTs message expiration_date s : String)
    (teacher_username : Option String) (docs : List Announcement)
    (hauth : ∃ u, require_teacher teachers teacher_username = .ok u)
    (ed sd : Date) (hep : parseDate expiration_date = some ed)
    (hsp : parseDate s = some sd) (hlt : ed < sd) :
    create_announcement teachers newId nowTs message expiration_date
        teacher_username (some s) docs
      = (.error (.invalidInput "start_date cannot be after expiration_date"), docs) := by
  obtain ⟨u, hu⟩ := hauth
  have hsne : s ≠ "" := parseDate_ne_empty hsp
  simp [create_announcement, hu, hep, checkStartDate, hsne, hsp, hlt]

/-- Witness for C5: the spec's example `start_date="2024-07-01"`,
`expiration_date="2024-06-01"`. -/
theorem create_rejects_start_after_expiration_witness :
    create_announcement ["alice"] "id1" "ts" "m" "2024-06-01"
        (some "alice") (some "2024-07-01") []
      = (.error (.invalidInput "start_date cannot be after expiration_date"), []) :=
  create_rejects_start_after_expiration ["alice"] "id1" "ts" "m" "2024-06-01"
    "2024-07-01" (some "alice") [] ⟨"alice", rfl⟩
    ⟨2024, 6, 1⟩ ⟨2024, 7, 1⟩ (by decide) (by decide) (by decide)

/-- C6: with an authorized actor, an `expiration_date` that does not parse
as a `YYYY-MM-DD` calendar date makes `create` fail with the 400 format
error, inserting nothing. -/
theorem create_rejects_bad_expiration
    (teachers : List String) (newId nowTs message expiration_date : String)
    (teacher_username start_date : Option String) (docs : List Announcement)
    (hauth : ∃ u, require_teacher teachers teacher_username = .ok u)
    (hep : parseDate expiration_date = none) :
    create_announcement teachers newId nowTs message expiration_date
        teacher_username start_date docs
      = (.error (.invalidInput "Invalid expiration_date format. Use YYYY-MM-DD"), docs) := by
  obtain ⟨u, hu⟩ := hauth
  simp [create_announcement, hu, hep]

/-- Witness for C6: the spec's example `expiration_date="2024-13-40"`. -/
theorem create_rejects_bad_expiration_witness :
    create_announcement ["alice"] "id1" "ts" "m" "2024-13-40"
        (some "alice") none []
      = (.error (.invalidInput "Invalid expiration_date format. Use YYYY-MM-DD"), []) :=
  create_rejects_bad_expiration ["alice"] "id1" "ts" "m" "2024-13-40"
    (some "alice") none [] ⟨"alice", rfl⟩ (by decide)

/-- C7: an actor that is absent, empty, or not in the teacher directory
makes each mutating operation fail with a 401 Unauthorized error, leaving
the collection unchanged. -/
theorem mutations_require_teacher
    (teachers : List String) (teacher_username : Option String)
    (hbad : teacher_username = none ∨
      ∃ u, teacher_username = some u ∧ (u = "" ∨ u ∉ teachers))
    (newId nowTs message expiration_date ann_id : String)
    (msgU expU startU start_date : Option String)
    (docs : List Announcement) :
    (∃ d, create_announcement teachers newId nowTs message expiration_date
        teacher_username start_date docs = (.error (.unauthorized d), docs)) ∧
    (∃ d, update_announcement teachers ann_id msgU expU teacher_username startU docs
        = (.error (.unauthorized d), docs)) ∧
    (∃ d, delete_announcement teachers ann_id teacher_username docs
        = (.error (.unauthorized d), docs)) := by
  have herr : ∃ d, require_teacher teachers teacher_username
      = .error (.unauthorized d) := by
    rcases hbad with h | ⟨u, hu, h2⟩
    · exact ⟨"Authentication required for this action", by simp [require_teacher, h]⟩
    · subst hu
      by_cases hu0 : u = ""
      · exact ⟨"Authentication required for this action",
          by simp [require_teacher, hu0]⟩
      · rcases h2 with h2 | h2
        · exact absurd h2 hu0
        · exact ⟨"Invalid teacher credentials",
            by simp [require_teacher, hu0, h2]⟩
  obtain ⟨d, hd⟩ := herr
  refine ⟨⟨d, ?_⟩, ⟨d, ?_⟩, ⟨d, ?_⟩⟩
  · simp [create_announcement, hd]
  · simp [update_announcement, hd]
  · simp [delete_announcement, hd]

/-- Witness for C7: username "bob" against a directory containing only
"alice". -/
theorem mutations_require_teacher_witness :
    (∃ d, create_announcement ["alice"] "id1" "ts" "m" "2024-06-01"
        (some "bob") none [] = (.error (.unauthorized d), [])) ∧
    (∃ d, update_announcement ["alice"] "0123456789abcdef01234567"
        (some "m") none (some "bob") none [] = (.error (.unauthorized d), [])) ∧
    (∃ d, delete_announcement ["alice"] "0123456789abcdef01234567"
        (some "bob") [] = (.error (.unauthorized d), [])) :=
  mutations_require_teacher ["alice"] (some "bob")
    (Or.inr ⟨"bob", rfl, Or.inr (by decide)⟩)
    "id1" "ts" "m" "2024-06-01" "0123456789abcdef01234567"
    (some "m") none none none []

/-- C8: a successfully created record appears in `list_all()` with the
message given at creation, the expiration date re-serialized to
`YYYY-MM-DD`, and the raw `start_date` string as given. -/
theorem create_roundtrip
    (teachers : List String) (newId nowTs message expiration_date : String)
    (teacher_username start_date : Option String)
    (docs docs' : List Announcement) (ann : Announcement)
    (h : create_announcement teachers newId nowTs message expiration_date
      teacher_username start_date docs = (.ok ann, docs')) :
    ann ∈ list_announcements docs' ∧ ann.message = message ∧
    (∃ ed, parseDate expiration_date = some ed ∧
      ann.expiration_date = some ed.isoformat) ∧
    ann.start_date = start_date := by
  unfold create_announcement at h
  split at h
  · simp at h
  · split at h
    · simp at h
    · rename_i exp_date hexp
      split at h
      · simp at h
      · simp only [Prod.mk.injEq, Except.ok.injEq] at h
        obtain ⟨h1, h2⟩ := h
        subst h1
        subst h2
        refine ⟨?_, rfl, ⟨exp_date, hexp, rfl⟩, rfl⟩
        simp [list_announcements]

/-- Witness for C8: applies the round-trip theorem to a concrete
successful creation. -/
theorem create_roundtrip_witness :
    (⟨"id1", "hello", some "2024-06-01", some "2024-06-30", "ts", "alice"⟩
        : Announcement) ∈
      list_announcements
        [⟨"id1", "hello", some "2024-06-01", some "2024-06-30", "ts", "alice"⟩] ∧
    (⟨"id1", "hello", some "2024-06-01", some "2024-06-30", "ts", "alice"⟩
        : Announcement).message = "hello" ∧
    (∃ ed, parseDate "2024-06-30" = some ed ∧
      (⟨"id1", "hello", some "2024-06-01", some "2024-06-30", "ts", "alice"⟩
          : Announcement).expiration_date = some ed.isoformat) ∧
    (⟨"id1", "hello", some "2024-06-01", some "2024-06-30", "ts", "alice"⟩
        : Announcement).start_date = some "2024-06-01" :=
  create_roundtrip ["alice"] "id1" "ts" "hello" "2024-06-30"
    (some "alice") (some "2024-06-01") []
    [⟨"id1", "hello", some "2024-06-01", some "2024-06-30", "ts", "alice"⟩]
    ⟨"id1", "hello", some "2024-06-01", some "2024-06-30", "ts", "alice"⟩ rfl

theorem updateFirst_split (oid : String) (u : UpdateFields) :
    ∀ docs r docs', updateFirst oid u docs = some (r, docs') →
      ∃ l₁ a l₂, docs = l₁ ++ a :: l₂ ∧ docs' = l₁ ++ r :: l₂ ∧
        a.id = oid ∧ r = applyFields u a := by
  intro docs
  induction docs with
  | nil =>
    intro r docs' h
    exact Option.noConfusion h
  | cons a rest ih =>
    intro r docs' h
    unfold updateFirst at h
    by_cases ha : a.id = oid
    · rw [if_pos ha] at h
      simp only [Option.some.injEq, Prod.mk.injEq] at h
      obtain ⟨h1, h2⟩ := h
      exact ⟨[], a, rest, rfl, by rw [← h2, ← h1]; rfl, ha, h1.symm⟩
    · rw [if_neg ha] at h
      split at h
      · exact Option.noConfusion h
      · rename_i r' rest' hp
        simp only [Option.some.injEq, Prod.mk.injEq] at h
        obtain ⟨h1, h2⟩ := h
        subst h1
        obtain ⟨l₁, b, l₂, e1, e2, e3, e4⟩ := ih _ _ hp
        exact ⟨a :: l₁, b, l₂, by rw [e1]; rfl, by rw [← h2, e2]; rfl, e3, e4⟩

/-- C9: a successful `update` rewrites exactly one stored record (the rest
of the collection is untouched), and in that record every field not
provided in the call keeps its previous value; `id`, `created_at` and
`created_by` are never touched. -/
theorem update_frame
    (teachers : List String) (ann_id : String)
    (message expiration_date teacher_username start_date : Option String)
    (docs docs' : List Announcement) (r : Announcement)
    (h : update_announcement teachers ann_id message expiration_date
      teacher_username start_date docs = (.ok r, docs')) :
    ∃ l₁ a l₂, docs = l₁ ++ a :: l₂ ∧ docs' = l₁ ++ r :: l₂ ∧
      r.id = a.id ∧ r.created_at = a.created_at ∧ r.created_by = a.created_by ∧
      (message = none → r.message = a.message) ∧
      (expiration_date = none → r.expiration_date = a.expiration_date) ∧
      (start_date = none → r.start_date = a.start_date) := by
  unfold update_announcement at h
  split at h
  · simp at h
  · split at h
    · simp at h
    · split at h
      · simp at h
      · rename_i expSet hexp
        split at h
        · simp at h
        · rename_i startSet hstart
          split at h
          · simp at h
          · split at h
            · simp at h
            · rename_i p hp
              simp only [Prod.mk.injEq, Except.ok.injEq] at h
              obtain ⟨h1, h2⟩ := h
              subst h1
              subst h2
              obtain ⟨l₁, a, l₂, e1, e2, e3, e4⟩ :=
                updateFirst_split ann_id ⟨message, expSet, startSet⟩ docs _ _ hp
              refine ⟨l₁, a, l₂, e1, e2, ?_, ?_, ?_, ?_, ?_, ?_⟩
              · rw [e4]; rfl
              · rw [e4]; rfl
              · rw [e4]; rfl
              · intro hm
                rw [e4]
                simp [applyFields, hm]
              · intro he
                rw [he] at hexp
                simp only [parseExpField] at hexp
                injection hexp with hexp'
                rw [e4]
                simp [applyFields, ← hexp']
              · intro hs
                rw [hs] at hstart
                simp only [parseStartField] at hstart
                injection hstart with hstart'
                rw [e4]
                simp [applyFields, ← hstart']

/-- Witness for C9: a concrete successful update of `start_date` only. -/
theorem update_frame_witness :
    ∃ l₁ a l₂,
      ([⟨"0123456789abcdef01234567", "m", none, some "2024-06-01", "t", "u"⟩]
          : List Announcement) = l₁ ++ a :: l₂ ∧
      ([⟨"0123456789abcdef01234567", "m", some "2024-07-01", some "2024-06-01",
          "t", "u"⟩] : List Announcement) =
        l₁ ++ (⟨"0123456789abcdef01234567", "m", some "2024-07-01",
          some "2024-06-01", "t", "u"⟩ : Announcement) :: l₂ ∧
      (⟨"0123456789abcdef01234567", "m", some "2024-07-01", some "2024-06-01",
        "t", "u"⟩ : Announcement).id = a.id ∧
      (⟨"0123456789abcdef01234567", "m", some "2024-07-01", some "2024-06-01",
        "t", "u"⟩ : Announcement).created_at = a.created_at ∧
      (⟨"0123456789abcdef01234567", "m", some "2024-07-01", some "2024-06-01",
        "t", "u"⟩ : Announcement).created_by = a.created_by ∧
      ((none : Option String) = none →
        (⟨"0123456789abcdef01234567", "m", some "2024-07-01", some "2024-06-01",
          "t", "u"⟩ : Announcement).message = a.message) ∧
      ((none : Option String) = none →
        (⟨"0123456789abcdef01234567", "m", some "2024-07-01", some "2024-06-01",
          "t", "u"⟩ : Announcement).expiration_date = a.expiration_date) ∧
      ((some "2024-07-01" : Option String) = none →
        (⟨"0123456789abcdef01234567", "m", some "2024-07-01", some "2024-06-01",
          "t", "u"⟩ : Announcement).start_date = a.start_date) :=
  update_frame ["alice"] "0123456789abcdef01234567" none none (some "alice")
    (some "2024-07-01")
    [⟨"0123456789abcdef01234567", "m", none, some "2024-06-01", "t", "u"⟩]
    [⟨"0123456789abcdef01234567", "m", some "2024-07-01", some "2024-06-01",
      "t", "u"⟩]
    ⟨"0123456789abcdef01234567", "m", some "2024-07-01", some "2024-06-01",
      "t", "u"⟩ rfl

theorem require_teacher_error_unauthorized (teachers : List String)
    (username : Option String) (e : ApiError)
    (h : require_teacher teachers username = .error e) :
    ∃ d, e = .unauthorized d := by
  unfold require_teacher at h
  split at h
  · injection h with h'
    exact ⟨_, h'.symm⟩
  · rename_i u
    by_cases h0 : u = ""
    · rw [if_pos h0] at h
      injection h with h'
      exact ⟨_, h'.symm⟩
    · rw [if_neg h0] at h
      by_cases hm : u ∈ teachers
      · rw [if_pos hm] at h
        exact Except.noConfusion h
      · rw [if_neg hm] at h
        injection h with h'
        exact ⟨_, h'.symm⟩

theorem parseExpField_error (expiration_date : Option String) (e : ApiError)
    (h : parseExpField expiration_date = .error e) :
    ∃ s, expiration_date = some s ∧ parseDate s = none := by
  unfold parseExpField at h
  split at h
  · exact Except.noConfusion h
  · rename_i s
    split at h
    · rename_i hp
      exact ⟨s, rfl, hp⟩
    · exact Except.noConfusion h

theorem parseExpField_ok_none (expiration_date : Option String)
    (h : parseExpField expiration_date = .ok none) :
    expiration_date = none := by
  unfold parseExpField at h
  split at h
  · rfl
  · rename_i s
    split at h
    · exact Except.noConfusion h
    · injection h with h'
      exact Option.noConfusion h'

theorem parseStartField_error (start_date : Option String) (e : ApiError)
    (h : parseStartField start_date = .error e) :
    ∃ s, start_date = some s ∧ parseDate s = none := by
  unfold parseStartField at h
  split at h
  · exact Except.noConfusion h
  · rename_i s
    split at h
    · rename_i hp
      exact ⟨s, rfl, hp⟩
    · exact Except.noConfusion h

theorem parseStartField_ok_none (start_date : Option String)
    (h : parseStartField start_date = .ok none) :
    start_date = none := by
  unfold parseStartField at h
  split at h
  · rfl
  · rename_i s
    split at h
    · exact Except.noConfusion h
    · simp at h

/-- An ObjectId-shaped store id used in concrete scenarios. -/
def demoOid : String := "0123456789abcdef01234567"

/-- A store reached by one successful `create`: a single record expiring
2024-06-01. -/
def demoStore : List Announcement :=
  (create_announcement ["alice"] demoOid "ts" "m" "2024-06-01"
    (some "alice") none []).2

/-- C10: `update` performs no cross-field ordering validation.  First, on a
store reached by a successful create, an authorized update of `start_date`
alone succeeds even though the merged record then has `start_date` strictly
after `expiration_date`.  Second, `update` returns an InvalidInput error
only for a malformed id, a provided but unparseable date, or an update
providing no fields at all. -/
theorem update_no_cross_field_validation :
    (∃ r docs', update_announcement ["alice"] demoOid none none (some "alice")
        (some "2024-07-01") demoStore = (.ok r, docs') ∧
      ∃ s e sd ed, r.start_date = some s ∧ r.expiration_date = some e ∧
        parseDate s = some sd ∧ parseDate e = some ed ∧ ed < sd) ∧
    (∀ (teachers : List String) (ann_id : String)
        (message expiration_date teacher_username start_date : Option String)
        (docs : List Announcement) (d : String),
      (update_announcement teachers ann_id message expiration_date
          teacher_username start_date docs).1 = .error (.invalidInput d) →
      isValidOid ann_id = false ∨
      (∃ e, expiration_date = some e ∧ parseDate e = none) ∨
      (∃ s, start_date = some s ∧ parseDate s = none) ∨
      (message = none ∧ expiration_date = none ∧ start_date = none)) := by
  constructor
  · refine ⟨⟨demoOid, "m", some "2024-07-01", some "2024-06-01", "ts", "alice"⟩,
      [⟨demoOid, "m", some "2024-07-01", some "2024-06-01", "ts", "alice"⟩],
      rfl, "2024-07-01", "2024-06-01", ⟨2024, 7, 1⟩, ⟨2024, 6, 1⟩,
      rfl, rfl, rfl, rfl, ?_⟩
    decide
  · intro teachers ann_id message expiration_date teacher_username start_date docs d h
    unfold update_announcement at h
    split at h
    · rename_i e herr
      obtain ⟨d', hd'⟩ := require_teacher_error_unauthorized _ _ _ herr
      rw [hd'] at h
      simp at h
    · split at h
      · rename_i hoid
        left
        simpa using hoid
      · split at h
        · rename_i e hexp
          right; left
          exact parseExpField_error _ _ hexp
        · rename_i expSet hexp
          split at h
          · rename_i e hstart
            right; right; left
            exact parseStartField_error _ _ hstart
          · rename_i startSet hstart
            split at h
            · rename_i hempty
              right; right; right
              refine ⟨hempty.1, ?_, ?_⟩
              · rw [hempty.2.1] at hexp
                exact parseExpField_ok_none _ hexp
              · rw [hempty.2.2] at hstart
                exact parseStartField_ok_none _ hstart
            · split at h
              · simp at h
              · simp at h

/-- Witness for C10: the second part applied to a malformed id. -/
theorem update_no_cross_field_validation_witness :
    isValidOid "xyz" = false ∨
    (∃ e, (none : Option String) = some e ∧ parseDate e = none) ∨
    (∃ s, (none : Option String) = some s ∧ parseDate s = none) ∨
    ((some "m" : Option String) = none ∧ (none : Option String) = none ∧
      (none : Option String) = none) :=
  update_no_cross_field_validation.2 ["alice"] "xyz" (some "m") none
    (some "alice") none [] "Invalid announcement id" rfl
